import Mathlib

/-!
Shallow embedding of the Feedback Management API (src/main_app.py),
a single-file FastAPI CRUD service over an in-memory dict
from UUID to Feedback records.

Modelling choices:
- UUIDs are modelled as natural numbers. The process state carries a
  counter `nextUuid`; a call to the random generator uuid4 is modelled
  as taking the counter's value and bumping it, so ids are fresh, which
  mirrors uuid4's (probabilistic) collision freedom.
- The Python dict feedbacks_db is an association list that preserves
  insertion order: assignment to a fresh key appends, assignment to a
  present key replaces in place, and del removes the entry, exactly as
  CPython dicts behave.
- A Feedback record stores its two data fields as Option String because
  pydantic's model_copy performs no validation, so an update carrying an
  explicit JSON null writes None into a field that is declared str.
- Request-body validation (pydantic / FastAPI) runs before a handler
  body, returning HTTP 422; handler-raised HTTPExceptions carry the
  status and detail given at the raise site.
-/

namespace FeedbackAPI

/-- The `Feedback` pydantic model (src/main_app.py lines 57-68): a UUID plus
the two `FeedbackBase` fields.  The data fields are `Option String` because
`model_copy` can place Python `None` in them even though they are declared
`str` / `EmailStr`. -/
structure Feedback where
  uuid : Nat
  feedback_content : Option String
  email_address : Option String
deriving Repr, DecidableEq

/-- The in-memory store `feedbacks_db` (line 15): an insertion-ordered map
from UUID to `Feedback`, modelled as an association list. -/
abbrev Store := List (Nat × Feedback)

/-- Python dict lookup / membership scan: the value at key `u`, if present. -/
def dbFind : Store → Nat → Option Feedback
  | [], _ => none
  | (k, v) :: rest, u => if k = u then some v else dbFind rest u

/-- Python `u in feedbacks_db`. -/
def dbContains (s : Store) (u : Nat) : Bool :=
  (dbFind s u).isSome

/-- Python `feedbacks_db[u] = fb`: replace in place when the key is present,
append otherwise (CPython dicts preserve insertion order). -/
def dbInsert : Store → Nat → Feedback → Store
  | [], u, fb => [(u, fb)]
  | (k, v) :: rest, u, fb =>
      if k = u then (u, fb) :: rest else (k, v) :: dbInsert rest u fb

/-- Python `del feedbacks_db[u]`. -/
def dbErase : Store → Nat → Store
  | [], _ => []
  | (k, v) :: rest, u => if k = u then rest else (k, v) :: dbErase rest u

/-- The `feedback_content` constraint of `FeedbackBase` (line 45):
`min_length=1, max_length=1000`. -/
def contentValid (s : String) : Bool :=
  1 ≤ s.length && s.length ≤ 1000

/-- Modelled from the spec: pydantic's `EmailStr` validator is not part of
this repository; the spec only requires the email to "conform to a standard
email-address syntax".  We model that as: exactly one at-sign, a non-empty
local part, and a non-empty domain that contains a dot not at either end. -/
def isValidEmail (s : String) : Bool :=
  let cs := s.toList
  let loc := cs.takeWhile (fun c => c != '@')
  match cs.dropWhile (fun c => c != '@') with
  | '@' :: dom =>
      !dom.contains '@' && !loc.isEmpty && !dom.isEmpty &&
        dom.contains '.' && dom.head? != some '.' && dom.getLast? != some '.'
  | _ => false

/-- Pydantic validation of a `FeedbackCreate` body (lines 43-50): the names
of the fields that fail their constraints (pydantic reports all of them). -/
def validateCreate (content email : String) : List String :=
  (if contentValid content then [] else ["feedback_content"]) ++
    (if isValidEmail email then [] else ["email_address"])

/-- One field of an update request body as it appears in the JSON document:
absent, explicitly `null`, or a string value. -/
inductive JsonField where
  | absent
  | null
  | str (s : String)
deriving Repr, DecidableEq

/-- The validated `FeedbackUpdate` model (lines 52-55).  Pydantic records,
per field, whether it was set at all and, when set, its value — which may be
`None`, since both fields are `Optional` and accept an explicit JSON null.
`none` = unset, `some none` = set to null, `some (some s)` = set to `s`. -/
structure FeedbackUpdate where
  feedback_content : Option (Option String)
  email_address : Option (Option String)
deriving Repr, DecidableEq

/-- `JsonField` as the tri-state value pydantic keeps for an update field. -/
def JsonField.toOpt : JsonField → Option (Option String)
  | .absent => none
  | .null => some none
  | .str s => some (some s)

/-- Errors a request can produce: pydantic body-validation failure (the
offending field names), the handler-raised 404, and the handler-raised
empty-update 400. -/
inductive ApiError where
  | validationError (fields : List String)
  | notFound (uuid : Nat)
  | emptyUpdate
deriving Repr, DecidableEq

/-- The HTTP status each error is served with: FastAPI returns 422 for
body-validation failures; the two handler-raised HTTPExceptions use
status.HTTP_404_NOT_FOUND and status.HTTP_400_BAD_REQUEST. -/
def ApiError.status : ApiError → Nat
  | .validationError _ => 422
  | .notFound _ => 404
  | .emptyUpdate => 400

/-- The `detail` string of each handler-raised HTTPException
(lines 131-134, 155-158, 163-167, 189-192). -/
def ApiError.detail : ApiError → String
  | .validationError fs => String.intercalate ", " fs
  | .notFound u => "Feedback with UUID " ++ toString u ++ " not found"
  | .emptyUpdate => "At least one field must be provided for update"

/-- Pydantic validation of a `FeedbackUpdate` body (lines 52-55): a supplied
string value is checked against the same per-field constraints as create; an
absent field and an explicit null both pass, because each field is
`Optional` with default `None`. -/
def validateUpdate (content email : JsonField) :
    Except ApiError FeedbackUpdate :=
  let cErrs := match content with
    | .str s => if contentValid s then [] else ["feedback_content"]
    | _ => []
  let eErrs := match email with
    | .str s => if isValidEmail s then [] else ["email_address"]
    | _ => []
  match cErrs ++ eErrs with
  | [] => .ok ⟨content.toOpt, email.toOpt⟩
  | errs => .error (.validationError errs)

/-- `stored_feedback.model_copy(update=update_data)` (line 169): overwrite
exactly the fields present in the dump, without re-validating; `uuid` is
never in the dump, so it is kept. -/
def model_copy (fb : Feedback) (upd : FeedbackUpdate) : Feedback :=
  { fb with
    feedback_content := upd.feedback_content.getD fb.feedback_content
    email_address := upd.email_address.getD fb.email_address }

/-- The process state: the store plus the uuid4 freshness counter. -/
structure ServerState where
  feedbacks_db : Store
  nextUuid : Nat
deriving Repr, DecidableEq

/-- `create_feedback` (lines 82-98), with pydantic body validation in
front: on a valid body, mint a fresh uuid, build the record and insert it;
a validation failure never reaches the handler body. -/
def create_feedback (st : ServerState) (content email : String) :
    Except ApiError Feedback × ServerState :=
  match validateCreate content email with
  | [] =>
      let u := st.nextUuid
      let new_feedback : Feedback := ⟨u, some content, some email⟩
      (.ok new_feedback, ⟨dbInsert st.feedbacks_db u new_feedback, u + 1⟩)
  | errs => (.error (.validationError errs), st)

/-- `get_all_feedbacks` (lines 107-113): `list(feedbacks_db.values())`. -/
def get_all_feedbacks (st : ServerState) : List Feedback :=
  st.feedbacks_db.map Prod.snd

/-- `get_feedback` (lines 122-135): 404 when the uuid is absent, otherwise
the stored record; never mutates. -/
def get_feedback (st : ServerState) (u : Nat) :
    Except ApiError Feedback × ServerState :=
  match dbFind st.feedbacks_db u with
  | none => (.error (.notFound u), st)
  | some fb => (.ok fb, st)

/-- `update_feedback` (lines 144-171), with pydantic body validation in
front.  Handler order as in the source: existence check first (404), then
the `model_dump(exclude_unset=True)` emptiness check (400) — the dump is
empty exactly when both fields are unset, an explicit null counts as set —
then `model_copy` and the dict assignment. -/
def update_feedback (st : ServerState) (u : Nat)
    (content email : JsonField) : Except ApiError Feedback × ServerState :=
  match validateUpdate content email with
  | .error e => (.error e, st)
  | .ok fu =>
      match dbFind st.feedbacks_db u with
      | none => (.error (.notFound u), st)
      | some stored_feedback =>
          if fu.feedback_content.isNone && fu.email_address.isNone then
            (.error .emptyUpdate, st)
          else
            let updated := model_copy stored_feedback fu
            (.ok updated,
              { st with feedbacks_db := dbInsert st.feedbacks_db u updated })

/-- `delete_feedback` (lines 180-194): 404 when absent, otherwise remove
the entry and return no content. -/
def delete_feedback (st : ServerState) (u : Nat) :
    Except ApiError Unit × ServerState :=
  match dbFind st.feedbacks_db u with
  | none => (.error (.notFound u), st)
  | some _ => (.ok (), { st with feedbacks_db := dbErase st.feedbacks_db u })

/-- The ten seed content/email pairs of `initialize_dummy_data`
(lines 20-31). -/
def dummy_feedbacks : List (String × String) :=
  [("Excellent service! Very satisfied with the product quality.",
      "john.doe@example.com"),
   ("Fast delivery and great customer support. Highly recommend!",
      "sarah.smith@example.com"),
   ("The product met my expectations. Good value for money.",
      "mike.johnson@example.com"),
   ("Outstanding experience! Will definitely order again.",
      "emily.brown@example.com"),
   ("Good quality but shipping took longer than expected.",
      "david.wilson@example.com"),
   ("Amazing customer service team. They resolved my issue quickly.",
      "lisa.garcia@example.com"),
   ("Product works as described. Very happy with my purchase.",
      "robert.martinez@example.com"),
   ("Great experience overall. The website is easy to navigate.",
      "jennifer.davis@example.com"),
   ("Impressed with the quality and attention to detail.",
      "william.rodriguez@example.com"),
   ("Fantastic product! Exceeded my expectations in every way.",
      "amanda.miller@example.com")]

/-- `initialize_dummy_data` (lines 18-40): for each seed pair, mint a fresh
uuid, build the `Feedback` and assign it into the dict. -/
def init_dummy_data (st : ServerState) : ServerState :=
  dummy_feedbacks.foldl
    (fun s p =>
      ⟨dbInsert s.feedbacks_db s.nextUuid ⟨s.nextUuid, some p.1, some p.2⟩,
        s.nextUuid + 1⟩)
    st

/-- The state right after module import (line 71 runs
`initialize_dummy_data()` on the empty dict), before any request. -/
def initialState : ServerState :=
  init_dummy_data ⟨[], 0⟩

/-- One HTTP request to the five CRUD routes, with its already-parsed
body. -/
inductive Request where
  | create (content email : String)
  | listAll
  | get (u : Nat)
  | update (u : Nat) (content email : JsonField)
  | delete (u : Nat)
deriving Repr, DecidableEq

/-- A successful response body. -/
inductive Response where
  | feedback (fb : Feedback)
  | feedbacks (l : List Feedback)
  | noContent
deriving Repr, DecidableEq

/-- The success status code each route declares (`status_code=` in the
decorators: 201 for POST /feedbacks, 204 for DELETE, FastAPI's default 200
elsewhere). -/
def routeStatus : Request → Nat
  | .create _ _ => 201
  | .listAll => 200
  | .get _ => 200
  | .update _ _ _ => 200
  | .delete _ => 204

/-- Dispatch one request to its handler.  This is the handler layer only:
the response_model validation FastAPI applies to the handler's return value
afterwards is modelled separately in `serve` below. -/
def handle (st : ServerState) :
    Request → Except ApiError Response × ServerState
  | .create c e =>
      ((create_feedback st c e).1.map Response.feedback,
        (create_feedback st c e).2)
  | .listAll => (.ok (.feedbacks (get_all_feedbacks st)), st)
  | .get u =>
      ((get_feedback st u).1.map Response.feedback, (get_feedback st u).2)
  | .update u c e =>
      ((update_feedback st u c e).1.map Response.feedback,
        (update_feedback st u c e).2)
  | .delete u =>
      ((delete_feedback st u).1.map (fun _ => Response.noContent),
        (delete_feedback st u).2)

/-- Freshness and uniqueness of uuids, as uuid4 guarantees for the real
process: keys are pairwise distinct and all below the counter. -/
def WF (st : ServerState) : Prop :=
  (st.feedbacks_db.map Prod.fst).Nodup ∧
    ∀ p ∈ st.feedbacks_db, p.1 < st.nextUuid

instance (st : ServerState) : Decidable (WF st) := by
  unfold WF; infer_instance

/-- The data-model invariant of the spec: every stored record has a present,
length-valid content and a present, syntactically valid email. -/
def feedbackValid (fb : Feedback) : Bool :=
  match fb.feedback_content, fb.email_address with
  | some c, some e => contentValid c && isValidEmail e
  | _, _ => false

/-- The invariant over the whole store. -/
def StoreInvariant (st : ServerState) : Prop :=
  ∀ p ∈ st.feedbacks_db, feedbackValid p.2 = true

instance (st : ServerState) : Decidable (StoreInvariant st) := by
  unfold StoreInvariant; infer_instance

/-- The response_model validation FastAPI applies to a handler's return
value: the POST/GET/PUT routes declare `response_model=Feedback` (or
`List[Feedback]` for the list route), so the returned record — or every
record of the returned list — must satisfy the declared `FeedbackBase`
constraints; the DELETE route declares no response model and returns no
content. -/
def responseValid : Response → Bool
  | .feedback fb => feedbackValid fb
  | .feedbacks l => l.all feedbackValid
  | .noContent => true

/-- What the client observes for one request: a success with the route's
declared status code, one of the handler-raised or body-validation client
errors, or the HTTP 500 that FastAPI serves when the handler's return value
fails the route's response_model validation
(fastapi.exceptions.ResponseValidationError). -/
inductive HttpOutcome where
  | success (status : Nat) (r : Response)
  | clientError (e : ApiError)
  | serverError
deriving Repr, DecidableEq

/-- One full request/response cycle as the FastAPI app performs it:
dispatch to the handler, then serve its return value through the route's
response_model validation.  That validation runs only after the handler has
returned, so any dict mutation the handler performed is kept even when the
response fails validation and the client receives a 500. -/
def serve (st : ServerState) (req : Request) : HttpOutcome × ServerState :=
  match handle st req with
  | (.ok r, st2) =>
      if responseValid r then (.success (routeStatus req) r, st2)
      else (.serverError, st2)
  | (.error e, st2) => (.clientError e, st2)

/-! ### Helper lemmas about the store operations -/

theorem dbFind_dbInsert_self (l : Store) (u : Nat) (fb : Feedback) :
    dbFind (dbInsert l u fb) u = some fb := by
  induction l with
  | nil => simp [dbInsert, dbFind]
  | cons p rest ih =>
      obtain ⟨k, v⟩ := p
      by_cases h : k = u
      · subst h; simp [dbInsert, dbFind]
      · simp [dbInsert, dbFind, h, ih]

theorem length_dbInsert_of_not_found (l : Store) (u : Nat) (fb : Feedback)
    (h : dbFind l u = none) : (dbInsert l u fb).length = l.length + 1 := by
  induction l with
  | nil => rfl
  | cons p rest ih =>
      obtain ⟨k, v⟩ := p
      by_cases hk : k = u
      · simp [dbFind, hk] at h
      · simp only [dbFind, if_neg hk] at h
        simp [dbInsert, hk, ih h]

theorem dbFind_eq_none_of_not_mem (l : Store) (u : Nat)
    (h : u ∉ l.map Prod.fst) : dbFind l u = none := by
  induction l with
  | nil => rfl
  | cons p rest ih =>
      obtain ⟨k, v⟩ := p
      simp only [List.map_cons, List.mem_cons, not_or] at h
      obtain ⟨h1, h2⟩ := h
      simp only [dbFind, if_neg (Ne.symm h1)]
      exact ih h2

theorem dbContains_eq_false_of_forall_lt (st : ServerState)
    (h : ∀ p ∈ st.feedbacks_db, p.1 < st.nextUuid) :
    dbFind st.feedbacks_db st.nextUuid = none := by
  apply dbFind_eq_none_of_not_mem
  intro hmem
  obtain ⟨p, hp, hfst⟩ := List.mem_map.mp hmem
  exact absurd (hfst ▸ h p hp) (lt_irrefl _)

theorem length_dbErase_of_found (l : Store) (u : Nat)
    (h : (dbFind l u).isSome = true) : (dbErase l u).length + 1 = l.length := by
  induction l with
  | nil => simp [dbFind] at h
  | cons p rest ih =>
      obtain ⟨k, v⟩ := p
      by_cases hk : k = u
      · simp [dbErase, hk]
      · simp only [dbFind, if_neg hk] at h
        simp [dbErase, hk, ih h]

theorem dbFind_dbErase_self (l : Store) (u : Nat)
    (h : (l.map Prod.fst).Nodup) : dbFind (dbErase l u) u = none := by
  induction l with
  | nil => rfl
  | cons p rest ih =>
      obtain ⟨k, v⟩ := p
      simp only [List.map_cons, List.nodup_cons] at h
      obtain ⟨hk, hrest⟩ := h
      by_cases hku : k = u
      · subst hku
        simp only [dbErase, if_pos rfl]
        exact dbFind_eq_none_of_not_mem rest k hk
      · simp only [dbErase, if_neg hku, dbFind, if_neg hku]
        exact ih hrest

/-! ### Frame lemmas: a failing handler never touches the state -/

theorem create_feedback_error_frame (st : ServerState) (c e : String)
    (err : ApiError) (h : (create_feedback st c e).1 = .error err) :
    (create_feedback st c e).2 = st := by
  rcases hv : validateCreate c e with _ | ⟨f, fs⟩
  · simp [create_feedback, hv] at h
  · simp [create_feedback, hv]

theorem get_feedback_state (st : ServerState) (u : Nat) :
    (get_feedback st u).2 = st := by
  rcases hf : dbFind st.feedbacks_db u with _ | fb <;>
    simp [get_feedback, hf]

theorem update_feedback_error_frame (st : ServerState) (u : Nat)
    (c e : JsonField) (err : ApiError)
    (h : (update_feedback st u c e).1 = .error err) :
    (update_feedback st u c e).2 = st := by
  rcases hv : validateUpdate c e with e' | fu
  · simp [update_feedback, hv]
  · rcases hf : dbFind st.feedbacks_db u with _ | stored
    · simp [update_feedback, hv, hf]
    · by_cases hempty :
        (fu.feedback_content.isNone && fu.email_address.isNone) = true
      · simp [update_feedback, hv, hf, hempty]
      · exfalso
        simp [update_feedback, hv, hf, hempty] at h

theorem delete_feedback_error_frame (st : ServerState) (u : Nat)
    (err : ApiError) (h : (delete_feedback st u).1 = .error err) :
    (delete_feedback st u).2 = st := by
  rcases hf : dbFind st.feedbacks_db u with _ | fb
  · simp [delete_feedback, hf]
  · exfalso
    simp [delete_feedback, hf] at h

/-- A handler-raised or body-validation error — the three 4xx-class errors —
never changes the state: every raise in the source precedes any dict
mutation.  The one remaining error path, the post-handler
response-validation 500, is not of this form (see the C2 theorem). -/
theorem handle_error_frame (st : ServerState)
    (req : Request) (err : ApiError)
    (h : (handle st req).1 = .error err) : (handle st req).2 = st := by
  cases req with
  | create c e =>
      simp only [handle] at h ⊢
      rcases hr : (create_feedback st c e).1 with e' | fb
      · exact create_feedback_error_frame st c e e' hr
      · rw [hr] at h; simp [Except.map] at h
  | listAll => rfl
  | get u => simpa only [handle] using get_feedback_state st u
  | update u c e =>
      simp only [handle] at h ⊢
      rcases hr : (update_feedback st u c e).1 with e' | fb
      · exact update_feedback_error_frame st u c e e' hr
      · rw [hr] at h; simp [Except.map] at h
  | delete u =>
      simp only [handle] at h ⊢
      rcases hr : (delete_feedback st u).1 with e' | fb
      · exact delete_feedback_error_frame st u e' hr
      · rw [hr] at h; simp [Except.map] at h

/-! ### The claims -/

/-- C1: the claim says every stored record keeps a non-empty, length-valid
content and a valid email across every operation, including an Update whose
body sets a field explicitly to null.  The code violates this: starting from
the seeded startup state (which does satisfy the invariant), an Update on an
existing id with body feedback_content = null is accepted and writes null
into the stored record, because model_dump(exclude_unset=True) keeps
explicit nulls and model_copy skips validation. -/
theorem C1_null_update_breaks_invariant :
    StoreInvariant initialState ∧
    (update_feedback initialState 0 JsonField.null JsonField.absent).1 =
      .ok ⟨0, none, some "john.doe@example.com"⟩ ∧
    dbFind
        (update_feedback initialState 0 JsonField.null
          JsonField.absent).2.feedbacks_db 0 =
      some ⟨0, none, some "john.doe@example.com"⟩ ∧
    ¬ StoreInvariant
        (update_feedback initialState 0 JsonField.null JsonField.absent).2 :=
  ⟨by decide, rfl, rfl, by decide⟩

/-- C2: the claim says every request that results in an error response —
the three named errors or any other failure — leaves the store exactly as it
was.  The code violates it on the same input as C1: an Update with body
feedback_content = null on an existing id has its handler write the
corrupted record into the dict and return it, and only then does the
route's response_model validation reject that record, so the client
receives a 500 error response while the store has already been mutated —
and indeed corrupted, since the new state no longer satisfies the data
invariant.  Handler-raised errors, by contrast, never mutate
(handle_error_frame above). -/
theorem C2_failing_request_mutates_store :
    (serve initialState
        (Request.update 0 JsonField.null JsonField.absent)).1 =
      HttpOutcome.serverError ∧
    (serve initialState
        (Request.update 0 JsonField.null JsonField.absent)).2 ≠
      initialState ∧
    dbFind (serve initialState (Request.update 0 JsonField.null
        JsonField.absent)).2.feedbacks_db 0 =
      some ⟨0, none, some "john.doe@example.com"⟩ ∧
    ¬ StoreInvariant
        (serve initialState
          (Request.update 0 JsonField.null JsonField.absent)).2 :=
  ⟨rfl, by decide, rfl, by decide⟩

/-- C3: for every valid (content, email) pair, Create succeeds, returns the
record carrying that content and email under the freshly minted id, a Get on
that id returns the very same record, and the store grew by exactly one
entry. -/
theorem C3_create_then_get (st : ServerState) (c e : String)
    (hc : contentValid c = true) (he : isValidEmail e = true)
    (hwf : WF st) :
    ∃ fb st2,
      create_feedback st c e = (.ok fb, st2) ∧
      fb = ⟨st.nextUuid, some c, some e⟩ ∧
      (get_feedback st2 fb.uuid).1 = .ok fb ∧
      st2.feedbacks_db.length = st.feedbacks_db.length + 1 := by
  have hv : validateCreate c e = [] := by simp [validateCreate, hc, he]
  refine ⟨⟨st.nextUuid, some c, some e⟩,
    ⟨dbInsert st.feedbacks_db st.nextUuid ⟨st.nextUuid, some c, some e⟩,
      st.nextUuid + 1⟩, ?_, rfl, ?_, ?_⟩
  · simp [create_feedback, hv]
  · simp [get_feedback, dbFind_dbInsert_self]
  · exact length_dbInsert_of_not_found _ _ _
      (dbContains_eq_false_of_forall_lt st hwf.2)

/-- Witness for C3 at a concrete valid body against the startup state. -/
theorem C3_create_then_get_witness :
    contentValid "Great!" = true ∧ isValidEmail "a@b.com" = true ∧
    WF initialState ∧
    ∃ fb st2,
      create_feedback initialState "Great!" "a@b.com" = (.ok fb, st2) ∧
      fb = ⟨initialState.nextUuid, some "Great!", some "a@b.com"⟩ ∧
      (get_feedback st2 fb.uuid).1 = .ok fb ∧
      st2.feedbacks_db.length = initialState.feedbacks_db.length + 1 :=
  ⟨by decide, by decide, by decide,
    C3_create_then_get initialState "Great!" "a@b.com" (by decide) (by decide)
      (by decide)⟩

/-- C4: updating only the content of an existing record sets the stored
content to the new value, keeps the uuid and the email as they were, and the
returned record is exactly the record stored after the update. -/
theorem C4_update_content_only (st : ServerState) (u : Nat)
    (stored : Feedback) (X : String)
    (hfound : dbFind st.feedbacks_db u = some stored)
    (hX : contentValid X = true) :
    (update_feedback st u (JsonField.str X) JsonField.absent).1 =
      .ok ⟨stored.uuid, some X, stored.email_address⟩ ∧
    dbFind (update_feedback st u (JsonField.str X)
        JsonField.absent).2.feedbacks_db u =
      some ⟨stored.uuid, some X, stored.email_address⟩ := by
  have hv : validateUpdate (JsonField.str X) JsonField.absent =
      .ok ⟨some (some X), none⟩ := by
    simp [validateUpdate, hX, JsonField.toOpt]
  constructor
  · simp [update_feedback, hv, hfound, model_copy]
  · simp [update_feedback, hv, hfound, model_copy, dbFind_dbInsert_self]

/-- Witness for C4: update the content of the first seeded record. -/
theorem C4_update_content_only_witness :
    dbFind initialState.feedbacks_db 0 =
      some ⟨0,
        some "Excellent service! Very satisfied with the product quality.",
        some "john.doe@example.com"⟩ ∧
    contentValid "Updated content" = true ∧
    ((update_feedback initialState 0 (JsonField.str "Updated content")
        JsonField.absent).1 =
      .ok ⟨0, some "Updated content", some "john.doe@example.com"⟩ ∧
    dbFind (update_feedback initialState 0 (JsonField.str "Updated content")
        JsonField.absent).2.feedbacks_db 0 =
      some ⟨0, some "Updated content", some "john.doe@example.com"⟩) :=
  ⟨rfl, by decide,
    C4_update_content_only initialState 0
      ⟨0, some "Excellent service! Very satisfied with the product quality.",
        some "john.doe@example.com"⟩
      "Updated content" rfl (by decide)⟩

/-- C5: an Update on an existing id that supplies neither field fails with
the empty-update error, served as HTTP 400 with the handler's detail
message, and the state is unchanged (the result pair keeps the input
state). -/
theorem C5_empty_update_rejected (st : ServerState) (u : Nat)
    (stored : Feedback)
    (hfound : dbFind st.feedbacks_db u = some stored) :
    update_feedback st u JsonField.absent JsonField.absent =
      (.error .emptyUpdate, st) ∧
    ApiError.emptyUpdate.status = 400 ∧
    ApiError.emptyUpdate.detail =
      "At least one field must be provided for update" := by
  refine ⟨?_, rfl, rfl⟩
  simp [update_feedback, validateUpdate, JsonField.toOpt, hfound]

/-- Witness for C5 on the first seeded record. -/
theorem C5_empty_update_rejected_witness :
    dbFind initialState.feedbacks_db 0 =
      some ⟨0,
        some "Excellent service! Very satisfied with the product quality.",
        some "john.doe@example.com"⟩ ∧
    (update_feedback initialState 0 JsonField.absent JsonField.absent =
      (.error .emptyUpdate, initialState) ∧
    ApiError.emptyUpdate.status = 400 ∧
    ApiError.emptyUpdate.detail =
      "At least one field must be provided for update") :=
  ⟨rfl,
    C5_empty_update_rejected initialState 0
      ⟨0, some "Excellent service! Very satisfied with the product quality.",
        some "john.doe@example.com"⟩ rfl⟩

/-- C6: deleting an existing id succeeds (the 204 route) and shrinks the
store by one; afterwards both Get and a second Delete on that id fail with
the 404 not-found error. -/
theorem C6_delete_then_get_delete (st : ServerState) (u : Nat)
    (hwf : WF st) (hmem : dbContains st.feedbacks_db u = true) :
    (delete_feedback st u).1 = .ok () ∧
    routeStatus (Request.delete u) = 204 ∧
    (delete_feedback st u).2.feedbacks_db.length + 1 =
      st.feedbacks_db.length ∧
    (get_feedback (delete_feedback st u).2 u).1 = .error (.notFound u) ∧
    (delete_feedback (delete_feedback st u).2 u).1 =
      .error (.notFound u) ∧
    (ApiError.notFound u).status = 404 := by
  unfold dbContains at hmem
  rcases hf : dbFind st.feedbacks_db u with _ | fb
  · rw [hf] at hmem; simp at hmem
  · have hdel : delete_feedback st u =
        (.ok (), { st with feedbacks_db := dbErase st.feedbacks_db u }) := by
      simp [delete_feedback, hf]
    have hnone : dbFind (dbErase st.feedbacks_db u) u = none :=
      dbFind_dbErase_self _ _ hwf.1
    refine ⟨by rw [hdel], rfl, ?_, ?_, ?_, rfl⟩
    · rw [hdel]
      exact length_dbErase_of_found _ _ (by rw [hf]; rfl)
    · rw [hdel]; simp [get_feedback, hnone]
    · rw [hdel]; simp [delete_feedback, hnone]

/-- Witness for C6: delete the fourth seeded record. -/
theorem C6_delete_then_get_delete_witness :
    WF initialState ∧ dbContains initialState.feedbacks_db 3 = true ∧
    ((delete_feedback initialState 3).1 = .ok () ∧
    routeStatus (Request.delete 3) = 204 ∧
    (delete_feedback initialState 3).2.feedbacks_db.length + 1 =
      initialState.feedbacks_db.length ∧
    (get_feedback (delete_feedback initialState 3).2 3).1 =
      .error (.notFound 3) ∧
    (delete_feedback (delete_feedback initialState 3).2 3).1 =
      .error (.notFound 3) ∧
    (ApiError.notFound 3).status = 404) :=
  ⟨by decide, rfl,
    C6_delete_then_get_delete initialState 3 (by decide) rfl⟩

/-- C7: a Create whose content is empty or over 1000 characters, or whose
email is invalid, is rejected by body validation (served as 422, within the
claim's 400/422) naming at least one offending field, and the state — hence
the store size — is unchanged. -/
theorem C7_invalid_create_rejected (st : ServerState) (c e : String)
    (h : contentValid c = false ∨ isValidEmail e = false) :
    (∃ fields, (create_feedback st c e).1 =
        .error (.validationError fields) ∧ fields ≠ [] ∧
        (ApiError.validationError fields).status = 422) ∧
    (create_feedback st c e).2 = st := by
  cases hc : contentValid c with
  | false =>
      have hv : validateCreate c e = "feedback_content" ::
          (if isValidEmail e then [] else ["email_address"]) := by
        simp [validateCreate, hc]
      exact ⟨⟨"feedback_content" ::
          (if isValidEmail e then [] else ["email_address"]),
        by simp [create_feedback, hv], by simp, rfl⟩,
        by simp [create_feedback, hv]⟩
  | true =>
      cases he : isValidEmail e with
      | false =>
          have hv : validateCreate c e = ["email_address"] := by
            simp [validateCreate, hc, he]
          exact ⟨⟨["email_address"], by simp [create_feedback, hv],
            by simp, rfl⟩, by simp [create_feedback, hv]⟩
      | true =>
          rw [hc] at h; rw [he] at h
          rcases h with h | h <;> exact absurd h (by simp)

/-- Witness for C7: empty content with a valid email is rejected and the
startup state is untouched. -/
theorem C7_invalid_create_rejected_witness :
    (contentValid "" = false ∨ isValidEmail "a@b.com" = false) ∧
    ((∃ fields, (create_feedback initialState "" "a@b.com").1 =
        .error (.validationError fields) ∧ fields ≠ [] ∧
        (ApiError.validationError fields).status = 422) ∧
    (create_feedback initialState "" "a@b.com").2 = initialState) :=
  ⟨Or.inl (by decide),
    C7_invalid_create_rejected initialState "" "a@b.com"
      (Or.inl (by decide))⟩

/-- C8: right after startup the store holds exactly ten records, List
returns exactly those ten, they carry the fixed seed content/email pairs in
order, and their generated ids are pairwise distinct. -/
theorem C8_startup_list_has_ten_records :
    (get_all_feedbacks initialState).length = 10 ∧
    (get_all_feedbacks initialState).map
        (fun fb => (fb.feedback_content, fb.email_address)) =
      dummy_feedbacks.map (fun p => (some p.1, some p.2)) ∧
    ((get_all_feedbacks initialState).map Feedback.uuid).Nodup ∧
    initialState.feedbacks_db.length = 10 :=
  ⟨rfl, rfl, by decide, rfl⟩

/-- C9: an Update on an absent id with a body supplying zero fields fails
with the 404 not-found error, not the empty-update error: the handler checks
existence before emptiness. -/
theorem C9_notfound_checked_before_empty (st : ServerState) (u : Nat)
    (h : dbFind st.feedbacks_db u = none) :
    update_feedback st u JsonField.absent JsonField.absent =
      (.error (.notFound u), st) ∧
    (ApiError.notFound u).status = 404 ∧
    ApiError.notFound u ≠ ApiError.emptyUpdate := by
  refine ⟨?_, rfl, by simp⟩
  simp [update_feedback, validateUpdate, JsonField.toOpt, h]

/-- Witness for C9 at an id absent from the startup store. -/
theorem C9_notfound_checked_before_empty_witness :
    dbFind initialState.feedbacks_db 42 = none ∧
    (update_feedback initialState 42 JsonField.absent JsonField.absent =
      (.error (.notFound 42), initialState) ∧
    (ApiError.notFound 42).status = 404 ∧
    ApiError.notFound 42 ≠ ApiError.emptyUpdate) :=
  ⟨rfl, C9_notfound_checked_before_empty initialState 42 rfl⟩

/-- C10: an Update on an existing id whose body explicitly sets
feedback_content (resp. email_address) to null succeeds — neither the
empty-update check nor validation rejects it — and null is written into
that field of the stored record, the other field and the uuid being kept. -/
theorem C10_explicit_null_is_written (st : ServerState) (u : Nat)
    (stored : Feedback)
    (hfound : dbFind st.feedbacks_db u = some stored) :
    (update_feedback st u JsonField.null JsonField.absent).1 =
      .ok ⟨stored.uuid, none, stored.email_address⟩ ∧
    dbFind (update_feedback st u JsonField.null
        JsonField.absent).2.feedbacks_db u =
      some ⟨stored.uuid, none, stored.email_address⟩ ∧
    (update_feedback st u JsonField.absent JsonField.null).1 =
      .ok ⟨stored.uuid, stored.feedback_content, none⟩ ∧
    dbFind (update_feedback st u JsonField.absent
        JsonField.null).2.feedbacks_db u =
      some ⟨stored.uuid, stored.feedback_content, none⟩ := by
  have hv1 : validateUpdate JsonField.null JsonField.absent =
      .ok ⟨some none, none⟩ := rfl
  have hv2 : validateUpdate JsonField.absent JsonField.null =
      .ok ⟨none, some none⟩ := rfl
  refine ⟨?_, ?_, ?_, ?_⟩ <;>
    simp [update_feedback, hv1, hv2, hfound, model_copy,
      dbFind_dbInsert_self]

/-- Witness for C10 on the first seeded record. -/
theorem C10_explicit_null_is_written_witness :
    dbFind initialState.feedbacks_db 0 =
      some ⟨0,
        some "Excellent service! Very satisfied with the product quality.",
        some "john.doe@example.com"⟩ ∧
    ((update_feedback initialState 0 JsonField.null JsonField.absent).1 =
      .ok ⟨0, none, some "john.doe@example.com"⟩ ∧
    dbFind (update_feedback initialState 0 JsonField.null
        JsonField.absent).2.feedbacks_db 0 =
      some ⟨0, none, some "john.doe@example.com"⟩ ∧
    (update_feedback initialState 0 JsonField.absent JsonField.null).1 =
      .ok ⟨0,
        some "Excellent service! Very satisfied with the product quality.",
        none⟩ ∧
    dbFind (update_feedback initialState 0 JsonField.absent
        JsonField.null).2.feedbacks_db 0 =
      some ⟨0,
        some "Excellent service! Very satisfied with the product quality.",
        none⟩) :=
  ⟨rfl,
    C10_explicit_null_is_written initialState 0
      ⟨0, some "Excellent service! Very satisfied with the product quality.",
        some "john.doe@example.com"⟩ rfl⟩

end FeedbackAPI
